import Mathlib

/-!
Verification of the Neron chat-bot repository. Each Python module that the
claims touch is shallowly embedded below: pure fragments become Lean
functions, SQLite tables become association lists, real-number arithmetic is
modelled exactly over the rationals and datetimes over (year, month, day)
triples. All definitions mirror the Python source of the repository.
-/

/-! ## Formatting utilities (`common/utils/pretty.py`) -/

namespace Pretty

/-- Python `x % 1` (based on floor division, so it is the fractional part
for every sign of `x`). -/
def pyMod1 (q : ℚ) : ℚ := q - ⌊q⌋

/-- Python `int(x)` on a real value: truncation toward zero. -/
def pyTrunc (q : ℚ) : ℤ := if q < 0 then ⌈q⌉ else ⌊q⌋

/-- Python `round(x)`: round half to even. -/
def pyRound (q : ℚ) : ℤ :=
  let f : ℤ := ⌊q⌋
  let r : ℚ := q - (f : ℚ)
  if r < 1/2 then f
  else if 1/2 < r then f + 1
  else if f % 2 = 0 then f else f + 1

/-- `bargraph` from `common/utils/pretty.py` (the source spells the length
parameter `lenght`). Arithmetic is modelled exactly over `ℚ` in place of
Python floats. -/
def bargraph (value total : ℚ) (lenght : ℚ) (use_half_bar display_percent : Bool) : String :=
  if total = 0 then " "
  else
    let percent : ℚ := value / total * 100
    let nb_bars : ℚ := percent / (100 / lenght)
    let bars : String := String.mk (List.replicate (pyTrunc nb_bars).toNat '█')
    let bars : String :=
      if pyMod1 nb_bars ≥ 1/2 ∧ use_half_bar = true then bars ++ "▌" else bars
    if display_percent = true then bars ++ " " ++ toString (pyRound percent) ++ "%" else bars

end Pretty

/-! ## Persistence layer (`common/dataio.py`)

A `settings` SQLite table (`key TEXT PRIMARY KEY, value TEXT`) is modelled
as an association list in row-insertion order; the PRIMARY KEY constraint
is what `INSERT OR IGNORE` / `INSERT OR REPLACE` react to. -/

namespace DataStore

/-- The rows of one `settings` table. -/
abbrev Settings := List (String × String)

/-- `SELECT value FROM settings WHERE key = ?` (first matching row). -/
def lookup_key (t : Settings) (k : String) : Option String :=
  (t.find? (fun kv => kv.fst == k)).map (fun kv => kv.snd)

/-- One `INSERT OR IGNORE INTO settings VALUES (?, ?)`: the row is inserted
only when no row with that primary key exists. -/
def insert_or_ignore (t : Settings) (k v : String) : Settings :=
  if lookup_key t k = none then t ++ [(k, v)] else t

/-- One `INSERT OR REPLACE INTO settings VALUES (?, ?)`: the conflicting row
(if any) is replaced, otherwise the row is appended. -/
def insert_or_replace (t : Settings) (k v : String) : Settings :=
  if lookup_key t k = none then t ++ [(k, v)]
  else t.map (fun kv => if kv.fst == k then (k, v) else kv)

/-- `CogData.build_settings_table` for a single entity: `CREATE TABLE IF NOT
EXISTS` (here: start from the existing table, or from the empty one), then
`INSERT OR IGNORE` each default pair in order. -/
def build_settings_table (table : Option Settings) (default_settings : List (String × String)) :
    Settings :=
  default_settings.foldl (fun acc kv => insert_or_ignore acc kv.fst kv.snd) (table.getD [])

/-- `CogData.update_settings`: `INSERT OR REPLACE` of each provided pair. -/
def update_settings (t : Settings) (kvs : List (String × String)) : Settings :=
  kvs.foldl (fun acc kv => insert_or_replace acc kv.fst kv.snd) t

/-- `CogData.get_setting` with the default `cast_as=str`: the raw TEXT value
of the row, or Python `None` when the key is absent. -/
def get_setting (t : Settings) (key : String) : Option String :=
  lookup_key t key

/-- Truthiness of the result of `get_setting(...)` used in a Python `if`:
`None` and the empty string are falsy, every other string is truthy. -/
def py_truthy (v : Option String) : Bool :=
  match v with
  | none => false
  | some s => s ≠ ""

end DataStore

/-! ## Exit module (`cogs/exit/exit.py`) -/

namespace ExitCog

open DataStore

/-- `Exit.send_webhook`: number of webhook send attempts it performs. The
webhook is built from the `WebhookURL` setting; a missing or empty URL means
no webhook object, hence no send. -/
def send_webhook_attempts (settings : Settings) : Nat :=
  if py_truthy (get_setting settings "WebhookURL") then 1 else 0

/-- `Exit.on_member_remove`: number of webhook send attempts produced by one
member-removal event. The guard is the bare Python truthiness test
`if self.data.get_setting(guild, 'Enabled'):` — note the absence of
`cast_as=int` in the source. -/
def on_member_remove_attempts (settings : Settings) : Nat :=
  if py_truthy (get_setting settings "Enabled") then send_webhook_attempts settings else 0

/-- The default settings seeded by `Exit.__initialize_guilds` (values pass
through Python `str`). -/
def exit_default_settings : List (String × String) :=
  [("Enabled", "0"), ("WebhookURL", ""),
   ("WebhookName", "Sorties"), ("WebhookAvatar", "https://i.imgur.com/d11TTS8.png")]

end ExitCog

/-! ## Colors module (`cogs/colors/colors.py`)

A platform role is modelled by its id, display name, colour value and list
of member ids holding it. A guild is its role list (in platform role order)
plus a counter supplying fresh role ids. Role positions are not modelled:
`move_role` only edits a position, which no claim mentions. -/

namespace Colors

structure Role where
  id : Nat
  name : String
  color : Nat
  members : List Nat
deriving Repr, DecidableEq

structure Guild where
  roles : List Role
  next_role_id : Nat
deriving Repr, DecidableEq

/-- Python `int(hex_color, 16)` on a string of hexadecimal digits. -/
def hex_val (s : String) : Nat :=
  s.data.foldl (fun acc c => acc * 16 + (if c.isDigit then c.toNat - 48 else c.toNat % 16 + 9)) 0

/-- Python `str.upper()` (character by character; the role names involved
are ASCII). -/
def py_upper (s : String) : String := String.mk (s.data.map Char.toUpper)

/-- The test `r.name.startswith('#') and r.name[1:].isalnum()` used
throughout the module, expressed on the character list (Python
`''.isalnum()` is `False`). -/
def is_color_role_name (n : String) : Bool :=
  match n.data with
  | [] => false
  | c :: rest => c == '#' && rest.length > 0 && rest.all Char.isAlphanum

/-- `Colors.get_color_roles`. -/
def get_color_roles (g : Guild) : List Role :=
  g.roles.filter (fun r => is_color_role_name r.name)

/-- `Colors.get_color_role`: first colour role whose name is `#` + the hex
value (`discord.utils.get`). -/
def get_color_role (g : Guild) (hex_color : String) : Option Role :=
  (get_color_roles g).find? (fun r => r.name == "#" ++ hex_color)

/-- A member's roles, in guild role order. -/
def member_roles (g : Guild) (m : Nat) : List Role :=
  g.roles.filter (fun r => m ∈ r.members)

/-- `Colors.get_user_color_role`: first colour role among the member's
roles. -/
def get_user_color_role (g : Guild) (m : Nat) : Option Role :=
  (member_roles g m).find? (fun r => is_color_role_name r.name)

/-- `Colors.is_recyclable`: no member outside the ignore list holds the
role. -/
def is_recyclable (r : Role) (ignore_members : List Nat) : Bool :=
  !(r.members.any (fun m => !(ignore_members.contains m)))

/-- `role.edit(name=..., color=...)` reflected in the guild state. -/
def edit_role (g : Guild) (rid : Nat) (new_name : String) (new_color : Nat) : Guild :=
  { g with roles := g.roles.map (fun r =>
      if r.id = rid then { r with name := new_name, color := new_color } else r) }

/-- `Colors.fetch_role`, mirrored branch by branch from the source: (1) an
exact role already exists — return it; (2) the requester holds a colour
role recyclable apart from them — `role.edit` it (the source performs the
edit and then falls through without a `return`); (3) first recyclable
colour role in the (possibly already edited) guild — edit and return it;
(4) otherwise `guild.create_role` a fresh role. Returns the new guild state
and the id of the returned role. -/
def fetch_role (g : Guild) (hex_color : String) (requested_by : Option Nat) : Guild × Nat :=
  match get_color_role g hex_color with
  | some role => (g, role.id)
  | none =>
    let g1 : Guild :=
      match requested_by with
      | some m =>
        match get_user_color_role g m with
        | some role =>
          if is_recyclable role [m] then
            edit_role g role.id ("#" ++ py_upper hex_color) (hex_val hex_color)
          else g
        | none => g
      | none => g
    match (get_color_roles g1).find? (fun r => is_recyclable r []) with
    | some role => (edit_role g1 role.id ("#" ++ py_upper hex_color) (hex_val hex_color), role.id)
    | none =>
      let new_role : Role :=
        { id := g1.next_role_id, name := "#" ++ py_upper hex_color,
          color := hex_val hex_color, members := [] }
      ({ g1 with roles := g1.roles ++ [new_role], next_role_id := g1.next_role_id + 1 },
       new_role.id)

/-- A guild in which the requester (member id 1) is the sole holder of the
colour role `#AAAAAA` — the situation of the `on_member_update` autoswitch
flow, where `fetch_role` runs while the member still wears their current
colour role. -/
def dup_guild : Guild :=
  { roles := [{ id := 10, name := "#AAAAAA", color := hex_val "AAAAAA", members := [1] }],
    next_role_id := 11 }

end Colors

/-! ## Starboard module (`cogs/starboard/starboard.py`)

The per-guild tables: `messages(message_id INTEGER PRIMARY KEY,
starboard_message_id, created_at)` and `votes(unique_id INTEGER PRIMARY KEY
AUTOINCREMENT, message_id, user_id)`. Both are modelled as lists of rows in
insertion order (the autoincrement key of `votes` is its list position). -/

namespace Starboard

structure SBState where
  messages : List (Nat × Nat × Nat)
  votes : List (Nat × Nat)
deriving Repr, DecidableEq

/-- `Starboard.get_message_data`. -/
def get_message_data (s : SBState) (message_id : Nat) : Option (Nat × Nat × Nat) :=
  s.messages.find? (fun row => row.fst == message_id)

/-- `Starboard.set_message_data` (`INSERT OR REPLACE`, keyed on the
`message_id` primary key); `now` stands for `int(datetime.now().timestamp())`. -/
def set_message_data (s : SBState) (message_id starboard_message_id now : Nat) : SBState :=
  if (get_message_data s message_id).isSome then
    { s with messages := s.messages.map (fun row =>
        if row.fst == message_id then (message_id, starboard_message_id, now) else row) }
  else
    { s with messages := s.messages ++ [(message_id, starboard_message_id, now)] }

/-- `Starboard.get_message_votes`: voter ids of all vote rows for the
message. -/
def get_message_votes (s : SBState) (message_id : Nat) : List Nat :=
  (s.votes.filter (fun row => row.fst == message_id)).map (fun row => row.snd)

/-- `Starboard.add_message_vote`: initialise the tracked-message row (mirror
id 0) when absent, then insert the vote only when the (message, user) pair
has no row yet; returns whether the vote was newly added. -/
def add_message_vote (s : SBState) (message_id user_id now : Nat) : SBState × Bool :=
  let s1 : SBState :=
    if (get_message_data s message_id).isSome then s
    else set_message_data s message_id 0 now
  if user_id ∈ get_message_votes s1 message_id then (s1, false)
  else ({ s1 with votes := s1.votes ++ [(message_id, user_id)] }, true)

open DataStore in
/-- `Starboard.config_sb_channel`, after its text-channel and guild guards:
the permission test of the source, literally `if not send_messages and not
read_message_history: reject`. Returns whether the channel was accepted and
the resulting settings table. -/
def config_sb_channel (send_messages read_message_history : Bool)
    (settings : Settings) (channel_id : Nat) : Bool × Settings :=
  if !send_messages && !read_message_history then (false, settings)
  else (true, update_settings settings [("Channel", toString channel_id)])

end Starboard

/-! ## Birthdays module (`cogs/birthdays/birthdays.py`)

Stored dates are day/month pairs (`DD/MM` text); datetimes are modelled as
(year, month, day) triples, whose lexicographic order coincides with Unix
timestamp order for valid calendar dates. -/

namespace Birthdays

/-- Comparison of two month/day dates inside one year (the `d < today`
datetime comparison of the source, taken at midnight). -/
def date_lt (m1 d1 m2 d2 : Nat) : Bool :=
  m1 < m2 || (m1 == m2 && d1 < d2)

/-- Timestamp key of a (year, month, day) triple: monotone in the
lexicographic order for month ≤ 99 and day ≤ 99, hence ordering by it
agrees with ordering by `datetime.timestamp()`. -/
def date_key (ymd : Nat × Nat × Nat) : Nat :=
  ymd.fst * 10000 + ymd.snd.fst * 100 + ymd.snd.snd

/-- The year-resolution step of `_next_birthdays`: put the stored birthday
in the current year, and move it to the next year when it has already
passed. -/
def resolve_next (today_year today_month today_day month day : Nat) : Nat × Nat × Nat :=
  if date_lt month day today_month today_day then (today_year + 1, month, day)
  else (today_year, month, day)

/-- The listing built by `_next_birthdays` lines 215–222: resolve every
stored birthday, then sort ascending by the resolved timestamp (Python
`sorted` is stable; so is `List.mergeSort`). Entries are
(member id, stored month, stored day). -/
def next_birthdays (today_year today_month today_day : Nat)
    (bdays : List (Nat × Nat × Nat)) : List (Nat × (Nat × Nat × Nat)) :=
  (bdays.map (fun e => (e.fst, resolve_next today_year today_month today_day e.snd.fst e.snd.snd))).mergeSort
    (fun a b => date_key a.snd ≤ date_key b.snd)

/-- The zodiac table of `get_zodiac_sign` (cutoff, name, glyph). -/
def zodiacs : List (Nat × String × String) :=
  [(120, "Capricorne", "♑"), (218, "Verseau", "♒"), (320, "Poisson", "♓"),
   (420, "Bélier", "♈"), (521, "Taureau", "♉"), (621, "Gémeaux", "♊"),
   (722, "Cancer", "♋"), (823, "Lion", "♌"), (923, "Vierge", "♍"),
   (1023, "Balance", "♎"), (1122, "Scorpion", "♏"), (1222, "Sagittaire", "♐"),
   (1231, "Capricorne", "♑")]

/-- `Birthdays.get_zodiac_sign`: `int(str(month) + '%02d' % day)` equals
`100 * month + day` for day ≤ 99; the first table entry whose cutoff is ≥
that number wins. -/
def get_zodiac_sign (month day : Nat) : Option (String × String) :=
  (zodiacs.find? (fun z => 100 * month + day ≤ z.fst)).map (fun z => z.snd)

end Birthdays

/-! ## Polls module (`cogs/polls/polls.py`)

A poll session's votes: an association list from choice label to the list
of voter ids, in choice order. -/

namespace Polls

/-- `FastPollSelect.callback` vote bookkeeping: first every choice list
drops the voter (`if user in votes[v]: votes[v].remove(user)` — one first
occurrence per list), then the selected choice appends the voter unless
already present. `selected` is the single selected value
(`max_values=1`). -/
def poll_callback (votes : List (String × List Nat)) (user : Nat) (selected : String) :
    List (String × List Nat) :=
  let removed := votes.map (fun cv => (cv.fst, cv.snd.erase user))
  removed.map (fun cv =>
    if cv.fst == selected then
      (cv.fst, if user ∈ cv.snd then cv.snd else cv.snd ++ [user])
    else cv)

end Polls

/-! ## Tools module (`cogs/tools/tools.py`) -/

namespace Tools

/-- `Tools.translate_text`. State: `supported` is the service's
supported-language list, `translators` the keys of the lazily built
translator-client cache, `oracle source target text` stands for the
external `GoogleTranslator(...).translate(text)` call. Returns the
translated text together with the cache keys afterwards, or the `ValueError`
message. -/
def translate_text (supported translators : List String)
    (oracle : String → String → String → String)
    (text target source : String) : Except String (String × List String) :=
  if source == target then .ok (text, translators)
  else if !(supported.contains target) then
    .error ("Langue cible " ++ target ++ " non supportee")
  else if !((supported ++ ["auto"]).contains source) then
    .error ("Langue source " ++ source ++ " non supportee")
  else
    let key := source ++ ":" ++ target
    let translators2 := if translators.contains key then translators else translators ++ [key]
    .ok (oracle source target text, translators2)

end Tools

/-! ## Supporting lemmas -/

namespace DataStore

theorem find?_pair_cons (hd : String × String) (tl : List (String × String)) (k : String) :
    List.find? (fun kv => kv.fst == k) (hd :: tl)
      = if hd.fst == k then some hd else List.find? (fun kv => kv.fst == k) tl := by
  cases hc : hd.fst == k <;> simp [List.find?_cons, hc]

theorem lookup_key_append_some {t : Settings} {k v : String} (l : Settings)
    (h : lookup_key t k = some v) : lookup_key (t ++ l) k = some v := by
  unfold lookup_key at h ⊢
  rw [List.find?_append]
  rcases h1 : t.find? (fun kv => kv.fst == k) with _ | kv
  · simp [h1] at h
  · simpa [h1] using h

theorem lookup_key_append_single {t : Settings} {k : String} (a b : String)
    (h : lookup_key t k = none) :
    lookup_key (t ++ [(a, b)]) k = if a == k then some b else none := by
  unfold lookup_key at h ⊢
  rw [List.find?_append]
  rcases h1 : t.find? (fun kv => kv.fst == k) with _ | kv
  · cases hak : a == k <;>
      simp [h1, find?_pair_cons, hak]
  · simp [h1] at h

theorem lookup_insert_or_ignore_of_some {t : Settings} {k v : String} (k2 v2 : String)
    (h : lookup_key t k = some v) : lookup_key (insert_or_ignore t k2 v2) k = some v := by
  unfold insert_or_ignore
  split
  · exact lookup_key_append_some _ h
  · exact h

theorem build_foldl_preserves (d : List (String × String)) :
    ∀ (t : Settings) (k v : String), lookup_key t k = some v →
      lookup_key (d.foldl (fun acc kv => insert_or_ignore acc kv.fst kv.snd) t) k = some v := by
  induction d with
  | nil => intro t k v h; simpa using h
  | cons hd tl ih =>
    intro t k v h
    exact ih _ _ _ (lookup_insert_or_ignore_of_some hd.fst hd.snd h)

theorem build_foldl_absent (d : List (String × String)) :
    ∀ (t : Settings) (k : String), lookup_key t k = none →
      lookup_key (d.foldl (fun acc kv => insert_or_ignore acc kv.fst kv.snd) t) k
        = (d.find? (fun kv => kv.fst == k)).map (fun kv => kv.snd) := by
  induction d with
  | nil => intro t k h; simpa using h
  | cons hd tl ih =>
    intro t k h
    rw [List.foldl_cons]
    by_cases hak : (hd.fst == k) = true
    · have hk : hd.fst = k := by simpa using hak
      have hins : lookup_key (insert_or_ignore t hd.fst hd.snd) k = some hd.snd := by
        unfold insert_or_ignore
        rw [hk, if_pos h, lookup_key_append_single k hd.snd h]
        simp
      rw [build_foldl_preserves tl _ _ _ hins]
      rw [find?_pair_cons, if_pos hak]
      rfl
    · have hins : lookup_key (insert_or_ignore t hd.fst hd.snd) k = none := by
        unfold insert_or_ignore
        split
        · rw [lookup_key_append_single _ _ h]
          simp [hak]
        · exact h
      rw [ih _ _ hins]
      rw [find?_pair_cons, if_neg (by simpa using hak)]

end DataStore

namespace Starboard

theorem votes_set_message_data (s : SBState) (a b c : Nat) :
    (set_message_data s a b c).votes = s.votes := by
  unfold set_message_data
  split <;> rfl

theorem get_message_votes_eq {s t : SBState} (mid : Nat) (h : s.votes = t.votes) :
    get_message_votes s mid = get_message_votes t mid := by
  unfold get_message_votes
  rw [h]

theorem mem_get_message_votes (s : SBState) (mid uid : Nat) :
    uid ∈ get_message_votes s mid ↔ (mid, uid) ∈ s.votes := by
  unfold get_message_votes
  simp only [List.mem_map, List.mem_filter, beq_iff_eq]
  constructor
  · rintro ⟨⟨a, b⟩, ⟨hmem, h1⟩, h2⟩
    simp only at h1 h2
    rw [h1, h2] at hmem
    exact hmem
  · intro h
    exact ⟨(mid, uid), ⟨h, rfl⟩, rfl⟩

theorem get_message_data_set_same (s : SBState) (mid b c : Nat)
    (h : get_message_data s mid = none) :
    get_message_data (set_message_data s mid b c) mid = some (mid, b, c) := by
  unfold set_message_data
  rw [if_neg (by simp [h])]
  unfold get_message_data at h ⊢
  simp only
  rw [List.find?_append, h]
  simp [List.find?_cons]

theorem add_vote_mem {s : SBState} {mid uid : Nat} (now : Nat)
    (h : uid ∈ get_message_votes s mid) :
    (add_message_vote s mid uid now).snd = false
    ∧ (add_message_vote s mid uid now).fst.votes = s.votes := by
  by_cases hiss : (get_message_data s mid).isSome = true
  · simp only [add_message_vote, if_pos hiss, if_pos h]
    exact ⟨trivial, trivial⟩
  · simp only [add_message_vote, if_neg hiss]
    rw [get_message_votes_eq mid (votes_set_message_data s mid 0 now), if_pos h]
    exact ⟨rfl, votes_set_message_data s mid 0 now⟩

theorem add_vote_not_mem {s : SBState} {mid uid : Nat} (now : Nat)
    (h : uid ∉ get_message_votes s mid) :
    (add_message_vote s mid uid now).snd = true
    ∧ (add_message_vote s mid uid now).fst.votes = s.votes ++ [(mid, uid)]
    ∧ (get_message_data s mid = none →
        get_message_data (add_message_vote s mid uid now).fst mid = some (mid, 0, now)) := by
  by_cases hiss : (get_message_data s mid).isSome = true
  · simp only [add_message_vote, if_pos hiss, if_neg h]
    refine ⟨trivial, trivial, fun habs => ?_⟩
    rw [habs] at hiss
    simp at hiss
  · simp only [add_message_vote, if_neg hiss]
    rw [get_message_votes_eq mid (votes_set_message_data s mid 0 now), if_neg h]
    refine ⟨rfl, ?_, fun habs => ?_⟩
    · show (set_message_data s mid 0 now).votes ++ [(mid, uid)] = s.votes ++ [(mid, uid)]
      rw [votes_set_message_data]
    · exact get_message_data_set_same s mid 0 now habs

end Starboard

theorem erase_not_mem_of_count_le_one {l : List Nat} {u : Nat} (h : l.count u ≤ 1) :
    u ∉ l.erase u := by
  have h3 := List.count_erase_self u l
  have h2 : (l.erase u).count u = 0 := by omega
  exact List.count_eq_zero.mp h2

/-! ## Claims -/

/-- Claim C1. The claim states that when `fetch_role` is called and the
requester holds a recyclable colour role, that role is renamed and
recoloured in place and returned, and no brand-new role is created for the
colour. The code violates this: the recycle-own-role branch performs the
`role.edit` but falls through without returning (its own comment says the
role is returned), so a second role with the same `#RRGGBB` name is then
created and returned. In `dup_guild` (requester 1 sole holder of
`#AAAAAA`), requesting `BBBBBB` leaves the guild with two roles named
`#BBBBBB` and returns the freshly created one (id 11), not the recycled one
(id 10). -/
theorem fetch_role_recycle_creates_duplicate :
    ((Colors.fetch_role Colors.dup_guild "BBBBBB" (some 1)).fst.roles.filter
        (fun r => r.name == "#BBBBBB")).length = 2
    ∧ (Colors.fetch_role Colors.dup_guild "BBBBBB" (some 1)).snd = 11
    ∧ Colors.get_user_color_role Colors.dup_guild 1 = some
        { id := 10, name := "#AAAAAA", color := Colors.hex_val "AAAAAA", members := [1] }
    ∧ Colors.is_recyclable
        { id := 10, name := "#AAAAAA", color := Colors.hex_val "AAAAAA", members := [1] }
        [1] = true
    ∧ Colors.get_color_role Colors.dup_guild "BBBBBB" = none := by
  refine ⟨by decide, rfl, rfl, rfl, rfl⟩

/-- Claim C2. The claim states that a guild whose Exit `Enabled` setting is
stored as 0 produces zero webhook send attempts on a member-removal event.
The code violates this: `on_member_remove` tests
`self.data.get_setting(guild, 'Enabled')` without `cast_as=int`, so the
stored TEXT value `"0"` is a non-empty — hence truthy — string, and with a
configured webhook URL the departure announcement is sent: one send
attempt, not zero. -/
theorem exit_disabled_still_sends_webhook :
    DataStore.get_setting
        [("Enabled", "0"), ("WebhookURL", "https://discord.com/api/webhooks/1/token")]
        "Enabled" = some "0"
    ∧ ExitCog.on_member_remove_attempts
        [("Enabled", "0"), ("WebhookURL", "https://discord.com/api/webhooks/1/token")] = 1 :=
  ⟨rfl, rfl⟩

/-- Claim C3. The votes table holds at most one row per (message, user)
pair: `add_message_vote` on a pair that already has a row inserts no vote
row and returns `false`; on a first-time pair it inserts exactly one row,
returns `true`, and creates the tracked-message row with mirror id 0 when
absent; and the at-most-one-row-per-pair invariant is preserved. -/
theorem starboard_vote_pair_unique (s : Starboard.SBState) (mid uid now : Nat) :
    (uid ∈ Starboard.get_message_votes s mid →
      (Starboard.add_message_vote s mid uid now).snd = false
      ∧ (Starboard.add_message_vote s mid uid now).fst.votes = s.votes)
    ∧ (uid ∉ Starboard.get_message_votes s mid →
      (Starboard.add_message_vote s mid uid now).snd = true
      ∧ (Starboard.add_message_vote s mid uid now).fst.votes = s.votes ++ [(mid, uid)]
      ∧ (Starboard.get_message_data s mid = none →
          Starboard.get_message_data (Starboard.add_message_vote s mid uid now).fst mid
            = some (mid, 0, now)))
    ∧ ((∀ p : Nat × Nat, s.votes.count p ≤ 1) →
        ∀ p : Nat × Nat, (Starboard.add_message_vote s mid uid now).fst.votes.count p ≤ 1) := by
  refine ⟨Starboard.add_vote_mem now, Starboard.add_vote_not_mem now, fun hinv p => ?_⟩
  by_cases hmem : uid ∈ Starboard.get_message_votes s mid
  · rw [(Starboard.add_vote_mem now hmem).2]
    exact hinv p
  · rw [(Starboard.add_vote_not_mem now hmem).2.1, List.count_append]
    by_cases hp : p = (mid, uid)
    · have h0 : s.votes.count p = 0 := by
        rw [List.count_eq_zero, hp]
        intro hc
        exact hmem ((Starboard.mem_get_message_votes s mid uid).mpr hc)
      rw [h0, hp]
      simp [List.count_singleton]
    · have h1 : List.count p [(mid, uid)] = 0 := by
        rw [List.count_eq_zero]
        simp only [List.mem_singleton]
        intro hc
        exact hp (by rw [hc])
      rw [h1]
      simpa using hinv p

/-- Witness for C3: evaluated on the empty state (first-time vote) and on a
state already containing the (5, 7) vote row (duplicate vote). -/
theorem starboard_vote_pair_unique_witness :
    (Starboard.add_message_vote ⟨[], []⟩ 5 7 100).snd = true
    ∧ (Starboard.add_message_vote ⟨[], []⟩ 5 7 100).fst.votes = [(5, 7)]
    ∧ Starboard.get_message_data (Starboard.add_message_vote ⟨[], []⟩ 5 7 100).fst 5
        = some (5, 0, 100)
    ∧ (Starboard.add_message_vote ⟨[(5, 0, 100)], [(5, 7)]⟩ 5 7 100).snd = false
    ∧ ∀ p : Nat × Nat, (Starboard.add_message_vote ⟨[], []⟩ 5 7 100).fst.votes.count p ≤ 1 :=
  ⟨((starboard_vote_pair_unique ⟨[], []⟩ 5 7 100).2.1 (by decide)).1,
   ((starboard_vote_pair_unique ⟨[], []⟩ 5 7 100).2.1 (by decide)).2.1,
   ((starboard_vote_pair_unique ⟨[], []⟩ 5 7 100).2.1 (by decide)).2.2 rfl,
   ((starboard_vote_pair_unique ⟨[(5, 0, 100)], [(5, 7)]⟩ 5 7 100).1 (by decide)).1,
   (starboard_vote_pair_unique ⟨[], []⟩ 5 7 100).2.2 (fun p => by simp)⟩

/-- Claim C4. Seeding the settings table a second time with a different
default set never changes a key that is already present (whatever value it
holds at that point, seeded or explicitly updated), and a key absent from
the table receives exactly its value from the new default set (nothing when
it is not in that set either). -/
theorem settings_seeding_nondestructive (t : DataStore.Settings)
    (d2 : List (String × String)) (k v : String) :
    (DataStore.lookup_key t k = some v →
      DataStore.lookup_key (DataStore.build_settings_table (some t) d2) k = some v)
    ∧ (DataStore.lookup_key t k = none →
      DataStore.lookup_key (DataStore.build_settings_table (some t) d2) k
        = (d2.find? (fun kv => kv.fst == k)).map (fun kv => kv.snd)) :=
  ⟨fun h => DataStore.build_foldl_preserves d2 t k v h,
   fun h => DataStore.build_foldl_absent d2 t k h⟩

/-- Witness for C4: first run seeds `A = 1`; the second run with defaults
`A = 2, B = 3` leaves `A` at `1` and inserts only `B`. -/
theorem settings_seeding_nondestructive_witness :
    DataStore.lookup_key
        (DataStore.build_settings_table
          (some (DataStore.build_settings_table none [("A", "1")])) [("A", "2"), ("B", "3")])
        "A" = some "1"
    ∧ DataStore.lookup_key
        (DataStore.build_settings_table
          (some (DataStore.build_settings_table none [("A", "1")])) [("A", "2"), ("B", "3")])
        "B" = some "3" :=
  ⟨(settings_seeding_nondestructive (DataStore.build_settings_table none [("A", "1")])
      [("A", "2"), ("B", "3")] "A" "1").1 (by decide),
   by
    rw [(settings_seeding_nondestructive (DataStore.build_settings_table none [("A", "1")])
      [("A", "2"), ("B", "3")] "B" "0").2 (by decide)]
    decide⟩

/-- Claim C5. The upcoming-birthdays listing resolves each stored day/month
to the current year when not yet passed and the next year otherwise, and
orders entries ascending by the resolved timestamp; with stored dates
Jan 10, Jun 15, Dec 25 evaluated on Dec 1 of 2023 the order is Dec 25
(2023), Jan 10 (2024), Jun 15 (2024). -/
theorem birthdays_upcoming_ordering :
    (∀ (ty tm td : Nat) (bdays : List (Nat × Nat × Nat)),
      (Birthdays.next_birthdays ty tm td bdays).Pairwise
        (fun a b => Birthdays.date_key a.snd ≤ Birthdays.date_key b.snd))
    ∧ (∀ (ty tm td : Nat) (bdays : List (Nat × Nat × Nat)),
      (Birthdays.next_birthdays ty tm td bdays).Perm
        (bdays.map (fun e => (e.fst, Birthdays.resolve_next ty tm td e.snd.fst e.snd.snd))))
    ∧ Birthdays.next_birthdays 2023 12 1 [(1, 1, 10), (2, 6, 15), (3, 12, 25)]
        = [(3, (2023, 12, 25)), (1, (2024, 1, 10)), (2, (2024, 6, 15))] := by
  refine ⟨fun ty tm td bdays => ?_, fun ty tm td bdays => ?_, ?_⟩
  · have h := @List.sorted_mergeSort (Nat × Nat × Nat × Nat)
      (fun a b => decide (Birthdays.date_key a.snd ≤ Birthdays.date_key b.snd))
      (fun a b c hab hbc => by
        simp only [decide_eq_true_eq] at hab hbc ⊢
        exact Nat.le_trans hab hbc)
      (fun a b => by
        simp only [Bool.or_eq_true, decide_eq_true_eq]
        exact Nat.le_total _ _)
      (bdays.map (fun e => (e.fst, Birthdays.resolve_next ty tm td e.snd.fst e.snd.snd)))
    exact (h.imp (fun hd => by simpa using hd))
  · exact List.mergeSort_perm _ _
  · simp [Birthdays.next_birthdays, List.mergeSort, Birthdays.resolve_next,
      Birthdays.date_lt, Birthdays.date_key, List.merge]

/-- Claim C6. The claim states that the starboard destination-channel
command rejects any channel on which the bot lacks send-messages or
read-message-history, leaving the `Channel` setting unchanged. The code
violates this: the guard is `not send_messages and not
read_message_history`, which rejects only when both are missing, so a
channel the bot cannot post in (but can read) is accepted and the setting
is updated. -/
theorem starboard_channel_accepts_unpostable :
    Starboard.config_sb_channel false true [("Channel", "0")] 42
      = (true, [("Channel", "42")]) := by
  decide

/-- Claim C7 counterexample. The claim states that `bargraph(1, 3)` with
length 10 yields 3 full blocks plus a half-block; in fact the bar count is
10/3 whose fractional remainder 1/3 is below 0.5, so no half-block is
appended. -/
theorem bargraph_claim_cex : ¬ (Pretty.bargraph 1 3 10 true false = "███▌") := by
  norm_num [Pretty.bargraph, Pretty.pyTrunc, Pretty.pyMod1]
  decide

/-- Claim C7 as amended: `bargraph(5, 10)` with length 10 yields exactly 5
full blocks and no half-block; `bargraph(1, 3)` with length 10 yields 3
full blocks and also no half-block (remainder 1/3 < 0.5); for every value
the bar for total 0 is a single space; and in general a half-block is
appended exactly when half-bars are enabled and the fractional remainder of
the bar count is at least 0.5. -/
theorem bargraph_rendering_amended :
    Pretty.bargraph 5 10 10 true false = "█████"
    ∧ Pretty.bargraph 1 3 10 true false = "███"
    ∧ (∀ (x L : ℚ) (u d : Bool), Pretty.bargraph x 0 L u d = " ")
    ∧ (∀ (v t L : ℚ) (u : Bool), t ≠ 0 → L ≠ 0 →
        ('▌' ∈ (Pretty.bargraph v t L u false).data ↔
          (u = true ∧ Pretty.pyMod1 (v / t * 100 / (100 / L)) ≥ 1/2))) := by
  refine ⟨?_, ?_, ?_, ?_⟩
  · norm_num [Pretty.bargraph, Pretty.pyTrunc, Pretty.pyMod1]
    decide
  · norm_num [Pretty.bargraph, Pretty.pyTrunc, Pretty.pyMod1]
    decide
  · intro x L u d
    simp [Pretty.bargraph]
  · intro v t L u ht hL
    simp only [Pretty.bargraph, if_neg ht, Bool.false_eq_true, if_false]
    by_cases hc : Pretty.pyMod1 (v / t * 100 / (100 / L)) ≥ 1/2 ∧ u = true
    · rw [if_pos hc]
      simp only [String.data_append]
      constructor
      · intro hmem
        exact ⟨hc.2, hc.1⟩
      · intro hmem
        simp
    · rw [if_neg hc]
      constructor
      · intro hmem
        have hrep : '▌' ∈ List.replicate
            (Pretty.pyTrunc (v / t * 100 / (100 / L))).toNat '█' := hmem
        rw [List.mem_replicate] at hrep
        exact absurd hrep.2 (by decide)
      · intro hmem
        exact absurd ⟨hmem.2, hmem.1⟩ hc

/-- Witness for C7 (amended): the general half-block characterisation
evaluated at value 7, total 10, length 10. -/
theorem bargraph_rendering_amended_witness :
    '▌' ∈ (Pretty.bargraph 7 10 10 true false).data ↔
      (true = true ∧ Pretty.pyMod1 ((7:ℚ) / 10 * 100 / (100 / 10)) ≥ 1/2) :=
  bargraph_rendering_amended.2.2.2 7 10 10 true (by norm_num) (by norm_num)

/-- Claim C8. The zodiac lookup returns the sign whose cutoff (month and
day as the integer `100 * month + day`, table ascending, wrapping at year
end) is the first one ≥ the date's own value: 02/20 maps to Pisces, 01/20
to Capricorn, 12/22 to Sagittarius, 12/31 to Capricorn, and every date of a
valid month/day range gets a sign. -/
theorem zodiac_lookup_boundaries :
    Birthdays.get_zodiac_sign 2 20 = some ("Poisson", "♓")
    ∧ Birthdays.get_zodiac_sign 1 20 = some ("Capricorne", "♑")
    ∧ Birthdays.get_zodiac_sign 12 22 = some ("Sagittaire", "♐")
    ∧ Birthdays.get_zodiac_sign 12 31 = some ("Capricorne", "♑")
    ∧ (∀ month day : Nat, month ≤ 12 → day ≤ 31 →
        (Birthdays.get_zodiac_sign month day).isSome = true) := by
  refine ⟨rfl, rfl, rfl, rfl, fun month day hm hd => ?_⟩
  unfold Birthdays.get_zodiac_sign
  have hmap : ∀ (o : Option (Nat × String × String)),
      (o.map (fun z => z.snd)).isSome = o.isSome := by
    intro o
    cases o <;> rfl
  rw [hmap, List.find?_isSome]
  refine ⟨(1231, "Capricorne", "♑"), by simp [Birthdays.zodiacs], by
    simp only [decide_eq_true_eq]
    omega⟩

/-- Witness for C8: the totality part applied at July 14. -/
theorem zodiac_lookup_boundaries_witness :
    (Birthdays.get_zodiac_sign 7 14).isSome = true :=
  zodiac_lookup_boundaries.2.2.2.2 7 14 (by decide) (by decide)

/-- Claim C9. After a voter selects a choice, their id is in the selected
choice's vote list and in no other list, each list still contains the voter
at most once, and the choice labels are untouched — assuming each list held
the voter at most once beforehand (true of every reachable poll state). -/
theorem poll_single_choice_invariant (votes : List (String × List Nat)) (user : Nat)
    (selected : String)
    (h : ∀ cv ∈ votes, cv.snd.count user ≤ 1) :
    (∀ cv ∈ Polls.poll_callback votes user selected, cv.fst = selected → user ∈ cv.snd)
    ∧ (∀ cv ∈ Polls.poll_callback votes user selected, cv.fst ≠ selected → user ∉ cv.snd)
    ∧ (∀ cv ∈ Polls.poll_callback votes user selected, cv.snd.count user ≤ 1)
    ∧ (Polls.poll_callback votes user selected).map Prod.fst = votes.map Prod.fst := by
  refine ⟨?_, ?_, ?_, ?_⟩
  · intro cv hcv hsel
    simp only [Polls.poll_callback, List.map_map, List.mem_map, Function.comp] at hcv
    obtain ⟨a, ha, rfl⟩ := hcv
    by_cases hs : a.fst == selected
    · simp only [hs, if_true]
      have hnm : user ∉ a.snd.erase user := erase_not_mem_of_count_le_one (h a ha)
      simp [if_neg hnm]
    · simp only [hs] at hsel ⊢
      simp only [if_neg (by simp : ¬ (false = true))] at hsel
      exact absurd (by simpa using hsel) (by simpa using hs)
  · intro cv hcv hsel
    simp only [Polls.poll_callback, List.map_map, List.mem_map, Function.comp] at hcv
    obtain ⟨a, ha, rfl⟩ := hcv
    by_cases hs : a.fst == selected
    · simp only [hs, if_true] at hsel ⊢
      exact absurd (by simpa using hs) hsel
    · simp only [hs, if_false]
      exact erase_not_mem_of_count_le_one (h a ha)
  · intro cv hcv
    simp only [Polls.poll_callback, List.map_map, List.mem_map, Function.comp] at hcv
    obtain ⟨a, ha, rfl⟩ := hcv
    have hc := h a ha
    have h3 := List.count_erase_self user a.snd
    by_cases hs : a.fst == selected
    · have hnm : user ∉ a.snd.erase user := erase_not_mem_of_count_le_one hc
      simp only [hs, if_true, if_neg hnm]
      rw [List.count_append]
      have h4 : (a.snd.erase user).count user = 0 := by omega
      simp [h4, List.count_singleton]
    · rw [Bool.not_eq_true] at hs
      simp only [hs, Bool.false_eq_true, if_false]
      show (a.snd.erase user).count user ≤ 1
      omega
  · simp only [Polls.poll_callback, List.map_map]
    apply List.map_congr_left
    intro a ha
    by_cases hs : a.fst == selected
    · simp [Function.comp, hs]
    · simp [Function.comp, hs]

/-- Witness for C9: voter 7 had selected choice A and now selects choice B. -/
theorem poll_single_choice_invariant_witness :
    (∀ cv ∈ Polls.poll_callback [("A", [7]), ("B", [])] 7 "B", cv.fst = "B" → 7 ∈ cv.snd)
    ∧ (∀ cv ∈ Polls.poll_callback [("A", [7]), ("B", [])] 7 "B", cv.fst ≠ "B" → 7 ∉ cv.snd)
    ∧ (∀ cv ∈ Polls.poll_callback [("A", [7]), ("B", [])] 7 "B", cv.snd.count 7 ≤ 1)
    ∧ (Polls.poll_callback [("A", [7]), ("B", [])] 7 "B").map Prod.fst
        = [("A", [7]), ("B", [])].map Prod.fst :=
  poll_single_choice_invariant [("A", [7]), ("B", [])] 7 "B" (by decide)

/-- Claim C10. Translating with source equal to target returns the text
unchanged with no error — even for a language outside the supported list —
and neither touches the translator cache nor performs the language
validation, since the `source == target` test comes first. -/
theorem translate_same_lang_identity (supported translators : List String)
    (oracle : String → String → String → String) (text lang : String) :
    Tools.translate_text supported translators oracle text lang lang
      = Except.ok (text, translators) := by
  simp [Tools.translate_text]
